import Mathlib

/-!
Shallow embedding of `pkg/apiserver/statement/queries.go` (tidb-dashboard):
the statement-summary configuration accessor (`querySQLIntVariable`,
`queryStmtConfig`, `updateStmtConfig`) and the statement query builders
(`queryStatements`, `queryPlans`, `queryPlanDetail`).

Modelling conventions:
- the gorm database handle is replaced by explicit inputs: a function from
  variable name to the raw `Pluck` result for reads, a function from an
  exec call to an optional error for writes, and a list of table rows plus
  an abstract `REGEXP` matcher for queries;
- a Go `error` is a value of `QErr`; a Go runtime panic (out-of-bounds
  index) is the `GoOutcome.panics` constructor;
- a gorm `Where(template, args...)` call is a `WhereClause` value holding
  the constant SQL template string and the bound argument values, exactly
  as the source passes them; the external executor's evaluation of these
  clauses over a row is `evalWhere`;
- machine integers are `Int` (no overflow is relevant to the claims);
- Go `strings.ToLower` / `strings.Fields` / `regexp.QuoteMeta` are embedded
  as `goToLower` / `goFields` / `goQuoteMeta`.
-/

deriving instance DecidableEq for Except

namespace StmtQueries

/-- `statementsTable` constant from queries.go. -/
def statementsTable : String := "INFORMATION_SCHEMA.CLUSTER_STATEMENTS_SUMMARY_HISTORY"

/-- `stmtEnableVar` constant from queries.go. -/
def stmtEnableVar : String := "tidb_enable_stmt_summary"

/-- `stmtRefreshIntervalVar` constant from queries.go. -/
def stmtRefreshIntervalVar : String := "tidb_stmt_summary_refresh_interval"

/-- `stmtHistorySizeVar` constant from queries.go. -/
def stmtHistorySizeVar : String := "tidb_stmt_summary_history_size"

/-- Errors surfaced by the embedded code: an error coming back from the
underlying store (opaque, indexed by a code), a `strconv.Atoi` parse
failure, and the unknown-field rejection of the projection builder. -/
inductive QErr where
  | dbErr (code : Nat)
  | atoiErr (s : String)
  | unknownField
deriving DecidableEq, Repr

/-- Outcome of running a piece of Go code: a value, a returned `error`,
or a runtime panic (models the unguarded `values[0]` index). -/
inductive GoOutcome (α : Type) where
  | ok (a : α)
  | fail (e : QErr)
  | panics
deriving DecidableEq, Repr

/-- Decimal digit accumulator for the `strconv.Atoi` embedding. -/
def parseDecDigits : List Char → Nat → Option Nat
  | [], acc => some acc
  | c :: rest, acc =>
    if c.isDigit then parseDecDigits rest (acc * 10 + (c.toNat - '0'.toNat)) else none

/-- Embedding of `strconv.Atoi`: an optional sign followed by at least one
decimal digit; parse failure carries the offending string. -/
def goAtoi (s : String) : Except QErr Int :=
  match s.toList with
  | [] => Except.error (QErr.atoiErr s)
  | '-' :: rest =>
    if rest = [] then Except.error (QErr.atoiErr s)
    else
      match parseDecDigits rest 0 with
      | some n => Except.ok (-(n : Int))
      | none => Except.error (QErr.atoiErr s)
  | '+' :: rest =>
    if rest = [] then Except.error (QErr.atoiErr s)
    else
      match parseDecDigits rest 0 with
      | some n => Except.ok (n : Int)
      | none => Except.error (QErr.atoiErr s)
  | cs =>
    match parseDecDigits cs 0 with
    | some n => Except.ok (n : Int)
    | none => Except.error (QErr.atoiErr s)

/-- Embedding of `querySQLIntVariable` (queries.go lines 34-50). The db
argument is the result of `db.Raw(...).Pluck("value", &values)`: either an
error or the list of returned value strings. The source indexes
`values[0]` with no emptiness guard, so a successful read with zero rows
is a runtime panic. -/
def querySQLIntVariable (pluckRes : Except QErr (List String)) : GoOutcome Int :=
  match pluckRes with
  | Except.error e => GoOutcome.fail e
  | Except.ok values =>
    match values.head? with
    | none => GoOutcome.panics
    | some strVal =>
      if strVal = "" then GoOutcome.ok (-1)
      else
        match goAtoi strVal with
        | Except.ok intVal => GoOutcome.ok intVal
        | Except.error e => GoOutcome.fail e

/-- The `Config` struct: statement-summary collection settings. -/
structure Config where
  Enable : Bool
  RefreshInterval : Int
  HistorySize : Int
deriving DecidableEq, Repr

/-- Embedding of `queryStmtConfig` (queries.go lines 52-82). The db
argument maps a global-variable name to the raw pluck result for
`SELECT @@GLOBAL.name`. Errors and panics of each read propagate. -/
def queryStmtConfig (db : String → Except QErr (List String)) : GoOutcome Config :=
  match querySQLIntVariable (db stmtEnableVar) with
  | GoOutcome.panics => GoOutcome.panics
  | GoOutcome.fail e => GoOutcome.fail e
  | GoOutcome.ok enable =>
    match querySQLIntVariable (db stmtRefreshIntervalVar) with
    | GoOutcome.panics => GoOutcome.panics
    | GoOutcome.fail e => GoOutcome.fail e
    | GoOutcome.ok refreshInterval =>
      match querySQLIntVariable (db stmtHistorySizeVar) with
      | GoOutcome.panics => GoOutcome.panics
      | GoOutcome.fail e => GoOutcome.fail e
      | GoOutcome.ok historySize =>
        GoOutcome.ok
          { Enable := enable ≠ 0
            RefreshInterval := if refreshInterval = -1 then 1800 else refreshInterval
            HistorySize := if historySize = -1 then 24 else historySize }

/-- A SQL bound value, as passed to gorm `Exec`/`Where`. -/
inductive SqlVal where
  | vB (b : Bool)
  | vI (i : Int)
  | vS (s : String)
  | vSS (l : List String)
deriving DecidableEq, Repr

/-- The `fmt.Sprintf("SET GLOBAL %s = ?", v)` string of `updateStmtConfig`. -/
def setGlobalSQL (v : String) : String := "SET GLOBAL " ++ v ++ " = ?"

/-- One `db.Exec(sql, arg)` call: the SQL text and the bound argument. -/
structure ExecCall where
  sql : String
  arg : SqlVal
deriving DecidableEq, Repr

/-- Embedding of `updateStmtConfig` (queries.go lines 84-100). The wr
argument is the store: it maps an exec call to `none` (success) or
`some e` (write error). Returns the Go function's returned error together
with the trace of exec calls actually issued, in order. Note the source
assigns the first write's error to `err` but does not check it before the
`config.Enable` branch: inside that branch `err` is overwritten. -/
def updateStmtConfig (wr : ExecCall → Option QErr) (config : Config) :
    Option QErr × List ExecCall :=
  let c1 : ExecCall := ⟨setGlobalSQL stmtEnableVar, SqlVal.vB config.Enable⟩
  let err1 := wr c1
  if config.Enable then
    let c2 : ExecCall := ⟨setGlobalSQL stmtRefreshIntervalVar, SqlVal.vI config.RefreshInterval⟩
    match wr c2 with
    | some e => (some e, [c1, c2])
    | none =>
      let c3 : ExecCall := ⟨setGlobalSQL stmtHistorySizeVar, SqlVal.vI config.HistorySize⟩
      (wr c3, [c1, c2, c3])
  else (err1, [c1])

/-- Embedding of Go `strings.ToLower` (and of the SQL `LOWER()` the
executor applies), character by character. -/
def goToLower (s : String) : String := String.mk (s.toList.map Char.toLower)

/-- Accumulating splitter behind `goFields`: the first argument is the
remaining input, the second the current field's characters in reverse. -/
def splitWsAux : List Char → List Char → List String
  | [], acc => if acc = [] then [] else [String.mk acc.reverse]
  | c :: rest, acc =>
    if c.isWhitespace then
      if acc = [] then splitWsAux rest []
      else String.mk acc.reverse :: splitWsAux rest []
    else splitWsAux rest (c :: acc)

/-- Embedding of Go `strings.Fields`: split around runs of whitespace. -/
def goFields (s : String) : List String := splitWsAux s.toList []

/-- The characters Go `regexp.QuoteMeta` escapes. -/
def goRegexSpecials : List Char := "\\.+*?()|[]\x7b\x7d^$".toList

/-- Embedding of Go `regexp.QuoteMeta`: prefix every regex metacharacter
with a backslash. -/
def goQuoteMeta (s : String) : String :=
  String.mk (s.toList.foldr
    (fun c acc => if goRegexSpecials.contains c then '\\' :: c :: acc else c :: acc) [])

/-- The per-schema pattern `fmt.Sprintf("\\b%s\\.", regexp.QuoteMeta(schema))`
pieces OR-joined with `strings.Join(regex, "|")` (queries.go lines 156-161). -/
def buildSchemaRegex (schemas : List String) : String :=
  String.intercalate "|" (schemas.map (fun schema => "\\b" ++ goQuoteMeta schema ++ "\\."))

/-- The time-window predicate template of all three query builders. -/
def timeWindowTemplate : String :=
  "summary_begin_time >= FROM_UNIXTIME(?) AND summary_end_time <= FROM_UNIXTIME(?)"

/-- The schema filter template (queries.go line 162). -/
def schemaRegexpTemplate : String := "table_names REGEXP ?"

/-- The statement-type filter template (queries.go line 166). -/
def stmtTypeInTemplate : String := "stmt_type in (?)"

/-- The free-text search template (queries.go lines 174-178); the source
writes it across several lines, embedded here with whitespace normalized
to single spaces. -/
def textSearchTemplate : String :=
  "LOWER(digest_text) REGEXP ? OR LOWER(digest) REGEXP ? OR LOWER(schema_name) REGEXP ? OR LOWER(table_names) REGEXP ? OR LOWER(plan) REGEXP ?"

/-- The exact schema-name match template (queries.go lines 218, 246). -/
def schemaEqTemplate : String := "schema_name = ?"

/-- The exact digest match template (queries.go lines 219, 247). -/
def digestEqTemplate : String := "digest = ?"

/-- The plan-digest membership template (queries.go line 249). -/
def planDigestInTemplate : String := "plan_digest in (?)"

/-- One gorm `Where(template, args...)` call: the constant SQL fragment
and the bound values, kept separate (never concatenated). -/
structure WhereClause where
  sqlTemplate : String
  args : List SqlVal
deriving DecidableEq, Repr

/-- The query a builder hands to the external executor: projection, table,
ordered where clauses, optional group-by and order-by. -/
structure Query where
  selectStmt : String
  table : String
  whereClauses : List WhereClause
  groupBy : Option String
  orderBy : Option String
deriving DecidableEq, Repr

/-- Modelled from the spec: `genSelectStmt` is not part of the provided
source file. Per spec §4.3 it resolves the projection from the requested
fields against the live column whitelist, failing with `UnknownFieldError`
when a requested name is not a member, and preserving caller order for
known names; per spec §4.5 the `"*"` request means all available columns
(no field restriction), so it is not subject to whitelist rejection. -/
def genSelectStmt (tableColumns : List String) (reqFields : List String) :
    Except QErr String :=
  if reqFields.all (fun f => f = "*" || tableColumns.contains f) then
    Except.ok (String.intercalate ", " reqFields)
  else Except.error QErr.unknownField

/-- The text-search where clauses of `queryStatements` (queries.go lines
169-182): lower-case the text, split into fields, and add one clause per
term with the term bound five times (once per searchable column). -/
def textWhereClauses (text : String) : List WhereClause :=
  (goFields (goToLower text)).map
    (fun v => ⟨textSearchTemplate, [SqlVal.vS v, SqlVal.vS v, SqlVal.vS v, SqlVal.vS v, SqlVal.vS v]⟩)

/-- Embedding of `Service.queryStatements` (queries.go lines 132-186) up to
the final `Find`: colsRes is the result of
`s.params.SysSchema.GetTableColumnNames` (an external collaborator, given
as an input); the built query is handed to the executor. -/
def queryStatements (colsRes : Except QErr (List String))
    (beginTime endTime : Int) (schemas stmtTypes : List String)
    (text : String) (reqFields : List String) : Except QErr Query :=
  match colsRes with
  | Except.error e => Except.error e
  | Except.ok tableColumns =>
    match genSelectStmt tableColumns reqFields with
    | Except.error e => Except.error e
    | Except.ok selectStmt =>
      let query : Query :=
        { selectStmt := selectStmt
          table := statementsTable
          whereClauses := [⟨timeWindowTemplate, [SqlVal.vI beginTime, SqlVal.vI endTime]⟩]
          groupBy := some "schema_name, digest"
          orderBy := some "agg_sum_latency DESC" }
      let query :=
        if schemas.length > 0 then
          { query with whereClauses :=
              query.whereClauses ++ [⟨schemaRegexpTemplate, [SqlVal.vS (buildSchemaRegex schemas)]⟩] }
        else query
      let query :=
        if stmtTypes.length > 0 then
          { query with whereClauses :=
              query.whereClauses ++ [⟨stmtTypeInTemplate, [SqlVal.vSS stmtTypes]⟩] }
        else query
      let query :=
        if text.length > 0 then
          { query with whereClauses := query.whereClauses ++ textWhereClauses text }
        else query
      Except.ok query

/-- The fixed field list of `Service.queryPlans` (queries.go lines 198-209). -/
def planListFields : List String :=
  ["plan_digest", "schema_name", "digest_text", "digest", "sum_latency", "max_latency",
   "min_latency", "avg_latency", "exec_count", "avg_mem", "max_mem"]

/-- Embedding of `Service.queryPlans` (queries.go lines 188-224) up to the
final `Find`. -/
def queryPlans (colsRes : Except QErr (List String))
    (beginTime endTime : Int) (schemaName digest : String) : Except QErr Query :=
  match colsRes with
  | Except.error e => Except.error e
  | Except.ok tableColumns =>
    match genSelectStmt tableColumns planListFields with
    | Except.error e => Except.error e
    | Except.ok selectStmt =>
      Except.ok
        { selectStmt := selectStmt
          table := statementsTable
          whereClauses :=
            [⟨timeWindowTemplate, [SqlVal.vI beginTime, SqlVal.vI endTime]⟩,
             ⟨schemaEqTemplate, [SqlVal.vS schemaName]⟩,
             ⟨digestEqTemplate, [SqlVal.vS digest]⟩]
          groupBy := some "plan_digest"
          orderBy := none }

/-- Embedding of `Service.queryPlanDetail` (queries.go lines 226-253) up to
the final `Scan`. -/
def queryPlanDetail (colsRes : Except QErr (List String))
    (beginTime endTime : Int) (schemaName digest : String)
    (plans : List String) : Except QErr Query :=
  match colsRes with
  | Except.error e => Except.error e
  | Except.ok tableColumns =>
    match genSelectStmt tableColumns ["*"] with
    | Except.error e => Except.error e
    | Except.ok selectStmt =>
      let query : Query :=
        { selectStmt := selectStmt
          table := statementsTable
          whereClauses :=
            [⟨timeWindowTemplate, [SqlVal.vI beginTime, SqlVal.vI endTime]⟩,
             ⟨schemaEqTemplate, [SqlVal.vS schemaName]⟩,
             ⟨digestEqTemplate, [SqlVal.vS digest]⟩]
          groupBy := none
          orderBy := none }
      let query :=
        if plans.length > 0 then
          { query with whereClauses :=
              query.whereClauses ++ [⟨planDigestInTemplate, [SqlVal.vSS plans]⟩] }
        else query
      Except.ok query

/-- Atoms of the regular-expression fragment `buildSchemaRegex` emits:
a word boundary (from the literal `\b`) or one literal character (either a
bare non-special character or an escaped metacharacter from QuoteMeta). -/
inductive RAtom where
  | boundary
  | lit (c : Char)
deriving DecidableEq, Repr

/-- Split a pattern at top-level `|` alternation bars; a backslash escapes
the character after it, so an escaped bar stays inside its piece. -/
def splitAlt : List Char → List (List Char)
  | [] => [[]]
  | '\\' :: c :: rest =>
    match splitAlt rest with
    | r :: rs => ('\\' :: c :: r) :: rs
    | [] => [['\\', c]]
  | '|' :: rest => [] :: splitAlt rest
  | c :: rest =>
    match splitAlt rest with
    | r :: rs => (c :: r) :: rs
    | [] => [[c]]

/-- Parse one alternation piece into atoms: `\b` is a word boundary, any
other backslash escape is the literal escaped character. -/
def parseRAtoms : List Char → List RAtom
  | [] => []
  | '\\' :: 'b' :: rest => RAtom.boundary :: parseRAtoms rest
  | '\\' :: c :: rest => RAtom.lit c :: parseRAtoms rest
  | c :: rest => RAtom.lit c :: parseRAtoms rest

/-- A word character for `\b` purposes: alphanumeric or underscore. -/
def isWordChar (c : Char) : Bool := c.isAlphanum || c = '_'

/-- Match a parsed piece against the suffix s, with prev the character
immediately before s in the subject (for the boundary test). -/
def matchRAtomsFrom : List RAtom → Option Char → List Char → Bool
  | [], _, _ => true
  | RAtom.boundary :: as, prev, s =>
    let prevW := match prev with
      | some c => isWordChar c
      | none => false
    let nextW := match s with
      | c :: _ => isWordChar c
      | [] => false
    (prevW != nextW) && matchRAtomsFrom as prev s
  | RAtom.lit c :: as, _, s =>
    match s with
    | d :: rest => c = d && matchRAtomsFrom as (some d) rest
    | [] => false

/-- Search for a match of the piece starting at any position of s. -/
def searchRAtoms (atoms : List RAtom) (prev : Option Char) (s : List Char) : Bool :=
  matchRAtomsFrom atoms prev s ||
    match s with
    | [] => false
    | c :: rest => searchRAtoms atoms (some c) rest

/-- The store's `subject REGEXP pattern` operator, on the pattern fragment
`buildSchemaRegex` produces (alternation of boundary-anchored escaped
literals): true when some alternative matches somewhere in the subject. -/
def mysqlRegexpMatch (subject pattern : String) : Bool :=
  (splitAlt pattern.toList).any
    (fun piece => searchRAtoms (parseRAtoms piece) none subject.toList)

/-- A row of CLUSTER_STATEMENTS_SUMMARY_HISTORY, restricted to the columns
the built predicates touch; summary window times are epoch seconds
(one-second resolution, as produced by FROM_UNIXTIME comparison). -/
structure Row where
  summary_begin_time : Int
  summary_end_time : Int
  schema_name : String
  digest : String
  digest_text : String
  table_names : String
  plan : String
  plan_digest : String
  stmt_type : String
  agg_sum_latency : Int
deriving DecidableEq, Repr

/-- The zero-valued row gorm `Scan` leaves behind when no row matches. -/
def Row.zero : Row := ⟨0, 0, "", "", "", "", "", "", "", 0⟩

/-- Modelled from the spec: evaluation of one emitted where clause over a
row by the external query executor (§6); `rmatch subject pattern` is the
store's `REGEXP` operator, abstract here. Only the clause shapes the
builders emit get a meaning; anything else is rejected. -/
def evalWhere (rmatch : String → String → Bool) (row : Row) (w : WhereClause) : Bool :=
  if w.sqlTemplate = timeWindowTemplate then
    match w.args with
    | [SqlVal.vI b, SqlVal.vI e] =>
      decide (b ≤ row.summary_begin_time ∧ row.summary_end_time ≤ e)
    | _ => false
  else if w.sqlTemplate = schemaRegexpTemplate then
    match w.args with
    | [SqlVal.vS p] => rmatch row.table_names p
    | _ => false
  else if w.sqlTemplate = stmtTypeInTemplate then
    match w.args with
    | [SqlVal.vSS ts] => ts.contains row.stmt_type
    | _ => false
  else if w.sqlTemplate = textSearchTemplate then
    match w.args with
    | [SqlVal.vS v1, SqlVal.vS v2, SqlVal.vS v3, SqlVal.vS v4, SqlVal.vS v5] =>
      rmatch (goToLower row.digest_text) v1 || rmatch (goToLower row.digest) v2 ||
      rmatch (goToLower row.schema_name) v3 || rmatch (goToLower row.table_names) v4 ||
      rmatch (goToLower row.plan) v5
    | _ => false
  else if w.sqlTemplate = schemaEqTemplate then
    match w.args with
    | [SqlVal.vS s] => row.schema_name = s
    | _ => false
  else if w.sqlTemplate = digestEqTemplate then
    match w.args with
    | [SqlVal.vS d] => row.digest = d
    | _ => false
  else if w.sqlTemplate = planDigestInTemplate then
    match w.args with
    | [SqlVal.vSS ps] => ps.contains row.plan_digest
    | _ => false
  else false

/-- A row satisfies a query when it passes every where clause. -/
def rowMatches (rmatch : String → String → Bool) (q : Query) (row : Row) : Bool :=
  q.whereClauses.all (evalWhere rmatch row)

/-- Modelled from the spec: the external executor returns the stored rows
that satisfy every predicate of the query (§6). -/
def execQuery (rmatch : String → String → Bool) (rows : List Row) (q : Query) :
    List Row :=
  rows.filter (rowMatches rmatch q)

/-- `queryStatements` followed by query execution (`Find`). -/
def queryStatementsExec (rmatch : String → String → Bool) (rows : List Row)
    (colsRes : Except QErr (List String)) (beginTime endTime : Int)
    (schemas stmtTypes : List String) (text : String) (reqFields : List String) :
    Except QErr (List Row) :=
  (queryStatements colsRes beginTime endTime schemas stmtTypes text reqFields).map
    (execQuery rmatch rows)

/-- `queryPlans` followed by query execution (`Find`). -/
def queryPlansExec (rmatch : String → String → Bool) (rows : List Row)
    (colsRes : Except QErr (List String)) (beginTime endTime : Int)
    (schemaName digest : String) : Except QErr (List Row) :=
  (queryPlans colsRes beginTime endTime schemaName digest).map (execQuery rmatch rows)

/-- `queryPlanDetail` followed by query execution and gorm `Scan`, which
materializes the first matching row and leaves the zero value when no row
matches. -/
def queryPlanDetailExec (rmatch : String → String → Bool) (rows : List Row)
    (colsRes : Except QErr (List String)) (beginTime endTime : Int)
    (schemaName digest : String) (plans : List String) : Except QErr Row :=
  (queryPlanDetail colsRes beginTime endTime schemaName digest plans).map
    (fun q => (execQuery rmatch rows q).headD Row.zero)

/-- The where clauses `queryStatements` accumulates before the text
filter: the time window, then optionally the schema regexp, then
optionally the statement-type membership. -/
def nonTextWhereClauses (beginTime endTime : Int) (schemas stmtTypes : List String) :
    List WhereClause :=
  [⟨timeWindowTemplate, [SqlVal.vI beginTime, SqlVal.vI endTime]⟩] ++
  (if schemas.length > 0 then
    [⟨schemaRegexpTemplate, [SqlVal.vS (buildSchemaRegex schemas)]⟩] else []) ++
  (if stmtTypes.length > 0 then
    [⟨stmtTypeInTemplate, [SqlVal.vSS stmtTypes]⟩] else [])

/-- Sorting relation of the `agg_sum_latency DESC` order clause. -/
def aggLatencyDescRel (a b : Row) : Prop := b.agg_sum_latency ≤ a.agg_sum_latency

instance : DecidableRel aggLatencyDescRel :=
  fun a b => Int.decLe b.agg_sum_latency a.agg_sum_latency

instance : IsTotal Row aggLatencyDescRel := ⟨fun a b => le_total b.agg_sum_latency a.agg_sum_latency⟩

instance : IsTrans Row aggLatencyDescRel := ⟨fun _ _ _ h1 h2 => le_trans h2 h1⟩

/-- Modelled from the spec: the external query executor (§6) applies the
query's order-by clause to the matching rows; for the
`agg_sum_latency DESC` clause it returns them sorted by total latency
descending. -/
def execOrdered (rmatch : String → String → Bool) (rows : List Row) (q : Query) :
    List Row :=
  if q.orderBy = some "agg_sum_latency DESC" then
    List.insertionSort aggLatencyDescRel (execQuery rmatch rows q)
  else execQuery rmatch rows q

/-- Concrete witness inputs: a live column set for the statement table. -/
def colsW : List String :=
  ["digest_text", "digest", "schema_name", "table_names", "plan", "plan_digest",
   "stmt_type", "summary_begin_time", "summary_end_time", "sum_latency", "max_latency",
   "min_latency", "avg_latency", "exec_count", "avg_mem", "max_mem"]

/-- Concrete witness store: reads back enabled=1 and both tuning
variables unset (empty string, the store's unset representation). -/
def cfgDbW : String → Except QErr (List String) := fun v =>
  if v = stmtEnableVar then Except.ok ["1"]
  else if v = stmtRefreshIntervalVar then Except.ok [""]
  else Except.ok ["100"]

/-- Concrete store that fails exactly the enabled-flag write. -/
def enableFailW : ExecCall → Option QErr := fun c =>
  if c.sql = setGlobalSQL stmtEnableVar then some (QErr.dbErr 1) else none

/-- Concrete store on which every write succeeds. -/
def wrOkW : ExecCall → Option QErr := fun _ => none

/-- Concrete config with collection enabled. -/
def cfgEnabledW : Config := ⟨true, 60, 10⟩

/-- Concrete config with collection disabled. -/
def cfgDisabledW : Config := ⟨false, 60, 10⟩

/-- Concrete row whose only table reference is in schema tpccx. -/
def rowTpccxW : Row :=
  { summary_begin_time := 100, summary_end_time := 200, schema_name := "tpccx"
    digest := "d1", digest_text := "select 1", table_names := "tpccx.orders"
    plan := "p", plan_digest := "pd1", stmt_type := "select", agg_sum_latency := 5 }

/-- Concrete row referencing schema tpcc. -/
def rowTpccW : Row :=
  { summary_begin_time := 100, summary_end_time := 200, schema_name := "tpcc"
    digest := "d2", digest_text := "select 2", table_names := "tpcc.orders"
    plan := "p", plan_digest := "pd2", stmt_type := "select", agg_sum_latency := 7 }

/-- Concrete row whose summary window is [100, 200]. -/
def row100200W : Row :=
  { summary_begin_time := 100, summary_end_time := 200, schema_name := "tpcc"
    digest := "d2", digest_text := "select 2", table_names := "tpcc.orders"
    plan := "p", plan_digest := "pd2", stmt_type := "select", agg_sum_latency := 7 }

/-- The query `queryStatements` builds for the witness text search. -/
def qTextW : Query :=
  { selectStmt := "digest_text"
    table := statementsTable
    whereClauses := nonTextWhereClauses 0 1000 [] [] ++ textWhereClauses "Select TPCC"
    groupBy := some "schema_name, digest"
    orderBy := some "agg_sum_latency DESC" }

/-- The query `queryStatements` builds for the witness schema filter. -/
def qSchemaW : Query :=
  { selectStmt := "digest_text"
    table := statementsTable
    whereClauses := nonTextWhereClauses 0 1000 ["tpcc"] []
    groupBy := some "schema_name, digest"
    orderBy := some "agg_sum_latency DESC" }

/-- The query `queryPlans` builds for the witness inputs. -/
def qPlansW : Query :=
  { selectStmt := String.intercalate ", " planListFields
    table := statementsTable
    whereClauses :=
      [⟨timeWindowTemplate, [SqlVal.vI 0, SqlVal.vI 1000]⟩,
       ⟨schemaEqTemplate, [SqlVal.vS "tpcc"]⟩,
       ⟨digestEqTemplate, [SqlVal.vS "d2"]⟩]
    groupBy := some "plan_digest"
    orderBy := none }

/-- The query `queryPlanDetail` builds for the witness inputs. -/
def qPlanDetailW : Query :=
  { selectStmt := "*"
    table := statementsTable
    whereClauses :=
      [⟨timeWindowTemplate, [SqlVal.vI 0, SqlVal.vI 1000]⟩,
       ⟨schemaEqTemplate, [SqlVal.vS "tpcc"]⟩,
       ⟨digestEqTemplate, [SqlVal.vS "d2"]⟩,
       ⟨planDigestInTemplate, [SqlVal.vSS ["pd2"]]⟩]
    groupBy := none
    orderBy := none }

theorem evalWhere_time (rmatch : String → String → Bool) (row : Row) (b e : Int) :
    evalWhere rmatch row ⟨timeWindowTemplate, [SqlVal.vI b, SqlVal.vI e]⟩ =
      decide (b ≤ row.summary_begin_time ∧ row.summary_end_time ≤ e) := rfl

theorem evalWhere_schemaRegexp (rmatch : String → String → Bool) (row : Row) (p : String) :
    evalWhere rmatch row ⟨schemaRegexpTemplate, [SqlVal.vS p]⟩ =
      rmatch row.table_names p := rfl

theorem evalWhere_stmtTypeIn (rmatch : String → String → Bool) (row : Row) (ts : List String) :
    evalWhere rmatch row ⟨stmtTypeInTemplate, [SqlVal.vSS ts]⟩ =
      ts.contains row.stmt_type := rfl

theorem evalWhere_text (rmatch : String → String → Bool) (row : Row) (v : String) :
    evalWhere rmatch row
      ⟨textSearchTemplate, [SqlVal.vS v, SqlVal.vS v, SqlVal.vS v, SqlVal.vS v, SqlVal.vS v]⟩ =
      (rmatch (goToLower row.digest_text) v || rmatch (goToLower row.digest) v ||
       rmatch (goToLower row.schema_name) v || rmatch (goToLower row.table_names) v ||
       rmatch (goToLower row.plan) v) := rfl

theorem evalWhere_schemaEq (rmatch : String → String → Bool) (row : Row) (s : String) :
    evalWhere rmatch row ⟨schemaEqTemplate, [SqlVal.vS s]⟩ =
      decide (row.schema_name = s) := rfl

theorem evalWhere_digestEq (rmatch : String → String → Bool) (row : Row) (d : String) :
    evalWhere rmatch row ⟨digestEqTemplate, [SqlVal.vS d]⟩ =
      decide (row.digest = d) := rfl

theorem evalWhere_planDigestIn (rmatch : String → String → Bool) (row : Row) (ps : List String) :
    evalWhere rmatch row ⟨planDigestInTemplate, [SqlVal.vSS ps]⟩ =
      ps.contains row.plan_digest := rfl

theorem genSelectStmt_error_of_missing (tableColumns reqFields : List String) (f : String)
    (hf : f ∈ reqFields) (hnc : f ∉ tableColumns) (hstar : f ≠ "*") :
    genSelectStmt tableColumns reqFields = Except.error QErr.unknownField := by
  unfold genSelectStmt
  rw [if_neg]
  intro hall
  rw [List.all_eq_true] at hall
  have h := hall f hf
  simp only [Bool.or_eq_true, decide_eq_true_eq] at h
  rcases h with h | h
  · exact hstar h
  · rw [List.contains, List.elem_iff] at h
    exact hnc h

theorem queryStatements_ok_shape (colsRes : Except QErr (List String))
    (beginTime endTime : Int) (schemas stmtTypes : List String)
    (text : String) (reqFields : List String) (q : Query)
    (hq : queryStatements colsRes beginTime endTime schemas stmtTypes text reqFields =
      Except.ok q) :
    q.whereClauses = nonTextWhereClauses beginTime endTime schemas stmtTypes ++
      (if text.length > 0 then textWhereClauses text else []) ∧
    q.groupBy = some "schema_name, digest" ∧
    q.orderBy = some "agg_sum_latency DESC" ∧
    q.table = statementsTable := by
  unfold queryStatements at hq
  rcases colsRes with e | tableColumns
  · exact absurd hq (by simp)
  · simp only at hq
    rcases hgen : genSelectStmt tableColumns reqFields with e | selectStmt
    · rw [hgen] at hq; exact absurd hq (by simp)
    · rw [hgen] at hq
      simp only [Except.ok.injEq] at hq
      subst hq
      unfold nonTextWhereClauses
      split_ifs <;> simp_all

theorem queryPlans_ok_shape (colsRes : Except QErr (List String))
    (beginTime endTime : Int) (schemaName digest : String) (q : Query)
    (hq : queryPlans colsRes beginTime endTime schemaName digest = Except.ok q) :
    q.whereClauses =
      [⟨timeWindowTemplate, [SqlVal.vI beginTime, SqlVal.vI endTime]⟩,
       ⟨schemaEqTemplate, [SqlVal.vS schemaName]⟩,
       ⟨digestEqTemplate, [SqlVal.vS digest]⟩] ∧
    q.groupBy = some "plan_digest" ∧ q.orderBy = none := by
  unfold queryPlans at hq
  rcases colsRes with e | tableColumns
  · exact absurd hq (by simp)
  · simp only at hq
    rcases hgen : genSelectStmt tableColumns planListFields with e | selectStmt
    · rw [hgen] at hq; exact absurd hq (by simp)
    · rw [hgen] at hq
      simp only [Except.ok.injEq] at hq
      subst hq
      simp

theorem queryPlanDetail_ok_shape (colsRes : Except QErr (List String))
    (beginTime endTime : Int) (schemaName digest : String) (plans : List String) (q : Query)
    (hq : queryPlanDetail colsRes beginTime endTime schemaName digest plans = Except.ok q) :
    q.whereClauses =
      [⟨timeWindowTemplate, [SqlVal.vI beginTime, SqlVal.vI endTime]⟩,
       ⟨schemaEqTemplate, [SqlVal.vS schemaName]⟩,
       ⟨digestEqTemplate, [SqlVal.vS digest]⟩] ++
      (if plans.length > 0 then [⟨planDigestInTemplate, [SqlVal.vSS plans]⟩] else []) ∧
    q.groupBy = none ∧ q.orderBy = none := by
  unfold queryPlanDetail at hq
  rcases colsRes with e | tableColumns
  · exact absurd hq (by simp)
  · simp only at hq
    rcases hgen : genSelectStmt tableColumns ["*"] with e | selectStmt
    · rw [hgen] at hq; exact absurd hq (by simp)
    · rw [hgen] at hq
      simp only [Except.ok.injEq] at hq
      subst hq
      split_ifs <;> simp_all

/-- Claim C10: `querySQLIntVariable` accesses the first element of the
store's returned value list without an emptiness guard: for a successful
read with zero rows the access is out of bounds (a panic); for a
successful read with at least one row the result is defined — sentinel -1
for an empty string, the parsed integer otherwise, or a parse error — and
a failed read returns its error. -/
theorem querySQLIntVariable_unguarded_first_element :
    querySQLIntVariable (Except.ok []) = GoOutcome.panics ∧
    (∀ v vs, querySQLIntVariable (Except.ok (v :: vs)) =
      (if v = "" then GoOutcome.ok (-1)
       else
         match goAtoi v with
         | Except.ok n => GoOutcome.ok n
         | Except.error e => GoOutcome.fail e)) ∧
    (∀ e, querySQLIntVariable (Except.error e) = GoOutcome.fail e) :=
  ⟨rfl, fun _ _ => rfl, fun _ => rfl⟩

/-- Claim C4: `queryStmtConfig` substitutes the documented defaults
exactly at the unset sentinel -1 (refresh interval 1800, history size 24),
applies no default to the enabled flag (true iff the stored value is
non-zero), and returns any non-sentinel stored value unchanged. -/
theorem queryStmtConfig_sentinel_defaults (db : String → Except QErr (List String))
    (en ri hs : Int)
    (h1 : querySQLIntVariable (db stmtEnableVar) = GoOutcome.ok en)
    (h2 : querySQLIntVariable (db stmtRefreshIntervalVar) = GoOutcome.ok ri)
    (h3 : querySQLIntVariable (db stmtHistorySizeVar) = GoOutcome.ok hs) :
    queryStmtConfig db = GoOutcome.ok
      { Enable := en ≠ 0
        RefreshInterval := if ri = -1 then 1800 else ri
        HistorySize := if hs = -1 then 24 else hs } := by
  unfold queryStmtConfig
  rw [h1, h2, h3]

/-- Claim C4 witness: a store with enabled=1 and both tuning variables
unset yields refresh interval 1800 and history size 24. -/
theorem queryStmtConfig_sentinel_defaults_witness :
    querySQLIntVariable (cfgDbW stmtEnableVar) = GoOutcome.ok 1 ∧
    querySQLIntVariable (cfgDbW stmtRefreshIntervalVar) = GoOutcome.ok (-1) ∧
    querySQLIntVariable (cfgDbW stmtHistorySizeVar) = GoOutcome.ok 100 ∧
    queryStmtConfig cfgDbW = GoOutcome.ok ⟨true, 1800, 100⟩ :=
  ⟨by decide, by decide, by decide, by
    have h := queryStmtConfig_sentinel_defaults cfgDbW 1 (-1) 100
      (by decide) (by decide) (by decide)
    simpa using h⟩

/-- Claim C1 (code bug): when `config.Enable` is true and the store fails
exactly the enabled-flag write, `updateStmtConfig` still issues the two
remaining writes and returns no error — the first write's error is
assigned to `err` but overwritten inside the `config.Enable` branch, so
the failure is silently suppressed, contradicting the spec's propagation
policy (every store failure surfaces to the caller). -/
theorem updateStmtConfig_enable_write_error_dropped :
    enableFailW ⟨setGlobalSQL stmtEnableVar, SqlVal.vB true⟩ = some (QErr.dbErr 1) ∧
    updateStmtConfig enableFailW cfgEnabledW =
      (none,
       [⟨setGlobalSQL stmtEnableVar, SqlVal.vB true⟩,
        ⟨setGlobalSQL stmtRefreshIntervalVar, SqlVal.vI 60⟩,
        ⟨setGlobalSQL stmtHistorySizeVar, SqlVal.vI 10⟩]) :=
  ⟨by decide, by decide⟩

/-- Claim C5: `updateStmtConfig` always writes the enabled flag first;
with `Enable = false` it issues exactly that one write, and with
`Enable = true` (and the refresh-interval write succeeding, since a
failure there aborts before the third write) it issues exactly three
writes in order: enabled, refresh interval, history size. -/
theorem updateStmtConfig_write_sequence (wr : ExecCall → Option QErr) (config : Config) :
    (updateStmtConfig wr config).2.head? =
      some ⟨setGlobalSQL stmtEnableVar, SqlVal.vB config.Enable⟩ ∧
    (config.Enable = false →
      (updateStmtConfig wr config).2 =
        [⟨setGlobalSQL stmtEnableVar, SqlVal.vB config.Enable⟩]) ∧
    (config.Enable = true →
      wr ⟨setGlobalSQL stmtRefreshIntervalVar, SqlVal.vI config.RefreshInterval⟩ = none →
      (updateStmtConfig wr config).2 =
        [⟨setGlobalSQL stmtEnableVar, SqlVal.vB config.Enable⟩,
         ⟨setGlobalSQL stmtRefreshIntervalVar, SqlVal.vI config.RefreshInterval⟩,
         ⟨setGlobalSQL stmtHistorySizeVar, SqlVal.vI config.HistorySize⟩]) := by
  unfold updateStmtConfig
  cases hE : config.Enable with
  | false => simp
  | true =>
    cases h2 : wr ⟨setGlobalSQL stmtRefreshIntervalVar, SqlVal.vI config.RefreshInterval⟩ with
    | none => simp [h2]
    | some e2 => simp [h2]

/-- Claim C5 witness: with an all-succeeding store, enabling issues the
three writes in order. -/
theorem updateStmtConfig_write_sequence_witness :
    cfgEnabledW.Enable = true ∧
    wrOkW ⟨setGlobalSQL stmtRefreshIntervalVar, SqlVal.vI cfgEnabledW.RefreshInterval⟩ = none ∧
    (updateStmtConfig wrOkW cfgEnabledW).2 =
      [⟨setGlobalSQL stmtEnableVar, SqlVal.vB true⟩,
       ⟨setGlobalSQL stmtRefreshIntervalVar, SqlVal.vI 60⟩,
       ⟨setGlobalSQL stmtHistorySizeVar, SqlVal.vI 10⟩] :=
  ⟨rfl, rfl, (updateStmtConfig_write_sequence wrOkW cfgEnabledW).2.2 rfl rfl⟩

/-- Claim C2: a requested field list containing a name outside the
resolved column whitelist (and distinct from the all-columns request `*`,
which spec §4.5 exempts) makes `queryStatements` fail with the
unknown-field error before any filter is applied or any query executed:
the outcome is the error for every store content, matcher, and filter
parameter. The same holds for `queryPlans` and its fixed projection list
when one of its fields is missing from the live column set. -/
theorem queryStatements_unknown_field_rejected
    (rmatch : String → String → Bool) (rows : List Row) (cols : List String)
    (beginTime endTime : Int) (schemas stmtTypes : List String) (text : String)
    (reqFields : List String) (schemaName digest : String) (f : String)
    (hf : f ∈ reqFields) (hnc : f ∉ cols) (hstar : f ≠ "*") :
    queryStatementsExec rmatch rows (Except.ok cols) beginTime endTime schemas
      stmtTypes text reqFields = Except.error QErr.unknownField ∧
    (∀ g ∈ planListFields, g ∉ cols →
      queryPlansExec rmatch rows (Except.ok cols) beginTime endTime schemaName digest =
        Except.error QErr.unknownField) := by
  constructor
  · have hgen := genSelectStmt_error_of_missing cols reqFields f hf hnc hstar
    simp [queryStatementsExec, queryStatements, hgen]
    rfl
  · intro g hg hgnc
    have hgstar : g ≠ "*" := by
      intro he
      subst he
      revert hg
      decide
    have hgen := genSelectStmt_error_of_missing cols planListFields g hg hgnc hgstar
    simp [queryPlansExec, queryPlans, hgen]
    rfl

/-- Claim C2 witness: requesting the unknown field bogus is rejected. -/
theorem queryStatements_unknown_field_rejected_witness :
    "bogus" ∈ ["digest_text", "bogus"] ∧ "bogus" ∉ colsW ∧ "bogus" ≠ "*" ∧
    queryStatementsExec mysqlRegexpMatch [rowTpccW] (Except.ok colsW) 0 1000 [] [] ""
      ["digest_text", "bogus"] = Except.error QErr.unknownField :=
  ⟨by decide, by decide, by decide,
   (queryStatements_unknown_field_rejected mysqlRegexpMatch [rowTpccW] colsW 0 1000
     [] [] "" ["digest_text", "bogus"] "s" "d" "bogus"
     (by decide) (by decide) (by decide)).1⟩

theorem string_contains_eq_true_iff (l : List String) (a : String) :
    l.contains a = true ↔ a ∈ l := by
  rw [List.contains, List.elem_iff]

/-- Claim C3: with a non-empty search text, `queryStatements` lower-cases
the input and splits it on whitespace into terms, appending one where
clause per term after the other filters; a row passes all the text
clauses iff every term matches (via the store's pattern search) at least
one of the five searchable columns — AND across terms, OR across the five
columns within one term; and every text clause keeps the constant SQL
template with the term only in the bound-argument list. -/
theorem queryStatements_text_search (rmatch : String → String → Bool)
    (colsRes : Except QErr (List String)) (beginTime endTime : Int)
    (schemas stmtTypes : List String) (text : String) (reqFields : List String)
    (q : Query)
    (hq : queryStatements colsRes beginTime endTime schemas stmtTypes text reqFields =
      Except.ok q)
    (htext : 0 < text.length) :
    q.whereClauses =
      nonTextWhereClauses beginTime endTime schemas stmtTypes ++ textWhereClauses text ∧
    (∀ row, (textWhereClauses text).all (evalWhere rmatch row) =
      (goFields (goToLower text)).all (fun v =>
        rmatch (goToLower row.digest_text) v || rmatch (goToLower row.digest) v ||
        rmatch (goToLower row.schema_name) v || rmatch (goToLower row.table_names) v ||
        rmatch (goToLower row.plan) v)) ∧
    (∀ w ∈ textWhereClauses text, w.sqlTemplate = textSearchTemplate ∧
      ∃ v ∈ goFields (goToLower text),
        w.args = [SqlVal.vS v, SqlVal.vS v, SqlVal.vS v, SqlVal.vS v, SqlVal.vS v]) := by
  refine ⟨?_, ?_, ?_⟩
  · have h := (queryStatements_ok_shape colsRes beginTime endTime schemas stmtTypes
      text reqFields q hq).1
    rw [h, if_pos htext]
  · intro row
    unfold textWhereClauses
    induction goFields (goToLower text) with
    | nil => rfl
    | cons v vs ih => simp [List.all_cons, ih, evalWhere_text]
  · intro w hw
    unfold textWhereClauses at hw
    rw [List.mem_map] at hw
    obtain ⟨v, hv, hweq⟩ := hw
    subst hweq
    exact ⟨rfl, v, hv, rfl⟩

/-- Claim C3 witness: searching for "Select TPCC" appends the two
lower-cased term clauses after the base filters. -/
theorem queryStatements_text_search_witness :
    queryStatements (Except.ok colsW) 0 1000 [] [] "Select TPCC" ["digest_text"] =
      Except.ok qTextW ∧
    0 < ("Select TPCC" : String).length ∧
    qTextW.whereClauses = nonTextWhereClauses 0 1000 [] [] ++ textWhereClauses "Select TPCC" :=
  ⟨by decide, by decide,
   (queryStatements_text_search mysqlRegexpMatch (Except.ok colsW) 0 1000 [] []
     "Select TPCC" ["digest_text"] qTextW (by decide) (by decide)).1⟩

/-- Claim C6: with a non-empty schemas list, `queryStatements` emits one
where clause whose bound pattern is the OR-alternation of the per-schema
pieces (each schema quoted by `goQuoteMeta` and anchored between `\b` and
`\.`, as `buildSchemaRegex` builds them); under the store's REGEXP
semantics the pattern for `["tpcc"]` rejects a row whose only table
reference is `tpccx.orders` and accepts one referencing `tpcc.orders`. -/
theorem queryStatements_schema_word_boundary (colsRes : Except QErr (List String))
    (beginTime endTime : Int) (schemas stmtTypes : List String)
    (text : String) (reqFields : List String) (q : Query)
    (hq : queryStatements colsRes beginTime endTime schemas stmtTypes text reqFields =
      Except.ok q)
    (hs : schemas ≠ []) :
    (⟨schemaRegexpTemplate, [SqlVal.vS (buildSchemaRegex schemas)]⟩ : WhereClause) ∈
      q.whereClauses ∧
    evalWhere mysqlRegexpMatch rowTpccxW
      ⟨schemaRegexpTemplate, [SqlVal.vS (buildSchemaRegex ["tpcc"])]⟩ = false ∧
    evalWhere mysqlRegexpMatch rowTpccW
      ⟨schemaRegexpTemplate, [SqlVal.vS (buildSchemaRegex ["tpcc"])]⟩ = true := by
  refine ⟨?_, by decide, by decide⟩
  have h := (queryStatements_ok_shape colsRes beginTime endTime schemas stmtTypes
    text reqFields q hq).1
  have hlen : schemas.length > 0 := List.length_pos.mpr hs
  rw [h]
  simp [nonTextWhereClauses, hlen]

/-- Claim C6 witness: searching with schemas `["tpcc"]` puts the built
alternation pattern into the query as a bound value. -/
theorem queryStatements_schema_word_boundary_witness :
    queryStatements (Except.ok colsW) 0 1000 ["tpcc"] [] "" ["digest_text"] =
      Except.ok qSchemaW ∧
    (["tpcc"] : List String) ≠ [] ∧
    (⟨schemaRegexpTemplate, [SqlVal.vS (buildSchemaRegex ["tpcc"])]⟩ : WhereClause) ∈
      qSchemaW.whereClauses :=
  ⟨by decide, by decide,
   (queryStatements_schema_word_boundary (Except.ok colsW) 0 1000 ["tpcc"] [] ""
     ["digest_text"] qSchemaW (by decide) (by decide)).1⟩

/-- Claim C7: the time-window clause every builder emits first selects
exactly the rows whose summary window is contained in
[beginTime, endTime], both bounds inclusive, at one-second resolution;
in particular the window [100, 200] passes for bounds (50, 250) and fails
for bounds (150, 250). -/
theorem queries_window_containment (rmatch : String → String → Bool)
    (colsRes : Except QErr (List String)) (beginTime endTime : Int) (row : Row)
    (schemas stmtTypes : List String) (text : String) (reqFields : List String)
    (schemaName digest : String) (plans : List String) (q1 q2 q3 : Query)
    (h1 : queryStatements colsRes beginTime endTime schemas stmtTypes text reqFields =
      Except.ok q1)
    (h2 : queryPlans colsRes beginTime endTime schemaName digest = Except.ok q2)
    (h3 : queryPlanDetail colsRes beginTime endTime schemaName digest plans =
      Except.ok q3) :
    (evalWhere rmatch row ⟨timeWindowTemplate, [SqlVal.vI beginTime, SqlVal.vI endTime]⟩ =
      true ↔ (beginTime ≤ row.summary_begin_time ∧ row.summary_end_time ≤ endTime)) ∧
    q1.whereClauses.head? =
      some ⟨timeWindowTemplate, [SqlVal.vI beginTime, SqlVal.vI endTime]⟩ ∧
    q2.whereClauses.head? =
      some ⟨timeWindowTemplate, [SqlVal.vI beginTime, SqlVal.vI endTime]⟩ ∧
    q3.whereClauses.head? =
      some ⟨timeWindowTemplate, [SqlVal.vI beginTime, SqlVal.vI endTime]⟩ ∧
    evalWhere rmatch row100200W ⟨timeWindowTemplate, [SqlVal.vI 50, SqlVal.vI 250]⟩ =
      true ∧
    evalWhere rmatch row100200W ⟨timeWindowTemplate, [SqlVal.vI 150, SqlVal.vI 250]⟩ =
      false := by
  refine ⟨?_, ?_, ?_, ?_, rfl, rfl⟩
  · rw [evalWhere_time]
    exact decide_eq_true_iff
  · have h := (queryStatements_ok_shape colsRes beginTime endTime schemas stmtTypes
      text reqFields q1 h1).1
    rw [h]
    simp [nonTextWhereClauses]
  · have h := (queryPlans_ok_shape colsRes beginTime endTime schemaName digest q2 h2).1
    rw [h]
    rfl
  · have h := (queryPlanDetail_ok_shape colsRes beginTime endTime schemaName digest
      plans q3 h3).1
    rw [h]
    simp

/-- Claim C7 witness: the three builders at concrete inputs all lead with
the window clause, and the [100, 200] row passes (50, 250) but not
(150, 250). -/
theorem queries_window_containment_witness :
    queryStatements (Except.ok colsW) 0 1000 ["tpcc"] [] "" ["digest_text"] =
      Except.ok qSchemaW ∧
    queryPlans (Except.ok colsW) 0 1000 "tpcc" "d2" = Except.ok qPlansW ∧
    queryPlanDetail (Except.ok colsW) 0 1000 "tpcc" "d2" ["pd2"] =
      Except.ok qPlanDetailW ∧
    evalWhere mysqlRegexpMatch row100200W
      ⟨timeWindowTemplate, [SqlVal.vI 50, SqlVal.vI 250]⟩ = true ∧
    evalWhere mysqlRegexpMatch row100200W
      ⟨timeWindowTemplate, [SqlVal.vI 150, SqlVal.vI 250]⟩ = false := by
  have h := queries_window_containment mysqlRegexpMatch (Except.ok colsW) 0 1000
    row100200W ["tpcc"] [] "" ["digest_text"] "tpcc" "d2" ["pd2"]
    qSchemaW qPlansW qPlanDetailW (by decide) (by decide) (by decide)
  exact ⟨by decide, by decide, by decide, h.2.2.2.2.1, h.2.2.2.2.2⟩

/-- Claim C8: `queryPlanDetail` selects exactly the rows satisfying window
containment, exact schema match and exact digest match, with the
plan-digest membership restriction applied iff the plans list is
non-empty; and when no stored row matches, the call returns the
zero-valued row rather than an error. -/
theorem queryPlanDetail_filter_and_zero_result (rmatch : String → String → Bool)
    (rows : List Row) (colsRes : Except QErr (List String))
    (beginTime endTime : Int) (schemaName digest : String) (plans : List String)
    (q : Query)
    (hq : queryPlanDetail colsRes beginTime endTime schemaName digest plans =
      Except.ok q) :
    (∀ row, rowMatches rmatch q row = true ↔
      (beginTime ≤ row.summary_begin_time ∧ row.summary_end_time ≤ endTime ∧
       row.schema_name = schemaName ∧ row.digest = digest ∧
       (plans ≠ [] → row.plan_digest ∈ plans))) ∧
    (execQuery rmatch rows q = [] →
      queryPlanDetailExec rmatch rows colsRes beginTime endTime schemaName digest plans =
        Except.ok Row.zero) := by
  have hsh := queryPlanDetail_ok_shape colsRes beginTime endTime schemaName digest
    plans q hq
  constructor
  · intro row
    rw [rowMatches, hsh.1]
    by_cases hp : plans = []
    · subst hp
      simp [evalWhere_time, evalWhere_schemaEq, evalWhere_digestEq, and_assoc]
    · have hlen : plans.length > 0 := List.length_pos.mpr hp
      simp [hlen, evalWhere_time, evalWhere_schemaEq, evalWhere_digestEq,
        evalWhere_planDigestIn, hp, string_contains_eq_true_iff, and_assoc]
  · intro hempty
    unfold queryPlanDetailExec
    rw [hq]
    simp [Except.map, hempty]

/-- Claim C8 witness: with a stored row whose digest differs, the
concrete plan-detail call matches nothing and yields the zero row. -/
theorem queryPlanDetail_filter_and_zero_result_witness :
    queryPlanDetail (Except.ok colsW) 0 1000 "tpcc" "d2" ["pd2"] =
      Except.ok qPlanDetailW ∧
    execQuery mysqlRegexpMatch [rowTpccxW] qPlanDetailW = [] ∧
    queryPlanDetailExec mysqlRegexpMatch [rowTpccxW] (Except.ok colsW) 0 1000
      "tpcc" "d2" ["pd2"] = Except.ok Row.zero := by
  have h := queryPlanDetail_filter_and_zero_result mysqlRegexpMatch [rowTpccxW]
    (Except.ok colsW) 0 1000 "tpcc" "d2" ["pd2"] qPlanDetailW (by decide)
  exact ⟨by decide, by decide, h.2 (by decide)⟩

/-- Claim C9: every successfully built statement search groups by
(schema name, digest) and orders by descending total-latency sum — the
query carries exactly those group-by and order-by clauses, and the
executor model applying that order clause returns the surviving rows
sorted most-expensive-first. -/
theorem queryStatements_group_and_order (rmatch : String → String → Bool)
    (rows : List Row) (colsRes : Except QErr (List String))
    (beginTime endTime : Int) (schemas stmtTypes : List String)
    (text : String) (reqFields : List String) (q : Query)
    (hq : queryStatements colsRes beginTime endTime schemas stmtTypes text reqFields =
      Except.ok q) :
    q.groupBy = some "schema_name, digest" ∧
    q.orderBy = some "agg_sum_latency DESC" ∧
    List.Sorted aggLatencyDescRel (execOrdered rmatch rows q) := by
  have hsh := queryStatements_ok_shape colsRes beginTime endTime schemas stmtTypes
    text reqFields q hq
  refine ⟨hsh.2.1, hsh.2.2.1, ?_⟩
  rw [execOrdered, if_pos hsh.2.2.1]
  exact List.sorted_insertionSort aggLatencyDescRel _

/-- Claim C9 witness: the concrete search query carries the group and
order clauses. -/
theorem queryStatements_group_and_order_witness :
    queryStatements (Except.ok colsW) 0 1000 ["tpcc"] [] "" ["digest_text"] =
      Except.ok qSchemaW ∧
    qSchemaW.groupBy = some "schema_name, digest" ∧
    qSchemaW.orderBy = some "agg_sum_latency DESC" := by
  have h := queryStatements_group_and_order mysqlRegexpMatch [rowTpccW]
    (Except.ok colsW) 0 1000 ["tpcc"] [] "" ["digest_text"] qSchemaW (by decide)
  exact ⟨by decide, h.1, h.2.1⟩

end StmtQueries
